import Mathlib

/-!
Verification development for the SmartFill front-end (`src/app.py`).

The file shallowly embeds the parts of `app.py` that the specification's
claims are about:

* a model `JVal` of the Python/JSON values that flow through the app,
  together with the Python primitives the code applies to them
  (`dict.get`, `in`, indexing, `len`, iteration, truthiness, `int(...)`,
  `str(...)`, `json.loads`);
* the SUCCEEDED output renderer (app.py lines 281-408) including the
  equal-length pairing branch, the mismatched-length fallback and the
  topics-absent fallback, with exceptions modelled explicitly;
* the FAILED renderer (lines 410-423);
* the status panel (lines 260-439) with the manual check button;
* the automatic status checker and its render-loop tick
  (lines 76-100 and 133-144);
* the staging loop for user text and uploaded files (lines 148-211)
  and the Step Function launch block (lines 213-257).

Modelling conventions: JSON numbers are modelled as integers (the
payloads exercised here contain no floats); Python exception messages are
modelled by short fixed strings since the code only interpolates them into
warning text; `st.*` UI calls are modelled as emitted events.
-/

/-- A Python/JSON value as handled by `app.py`.  Numbers are modelled as
integers; dictionaries as association lists with distinct keys (first
binding wins, as in `dict`). -/
inductive JVal where
  | str (s : String)
  | num (n : Int)
  | bool (b : Bool)
  | null
  | arr (elems : List JVal)
  | obj (fields : List (String × JVal))

mutual
/-- Structural equality of values, modelling Python `==` on the JSON-like
values that occur here (no numeric cross-type equalities are exercised). -/
def JVal.beq : JVal → JVal → Bool
  | .str a, .str b => a == b
  | .num a, .num b => a == b
  | .bool a, .bool b => a == b
  | .null, .null => true
  | .arr a, .arr b => JVal.beqElems a b
  | .obj a, .obj b => JVal.beqFields a b
  | _, _ => false

/-- Pointwise `JVal.beq` on lists. -/
def JVal.beqElems : List JVal → List JVal → Bool
  | [], [] => true
  | x :: xs, y :: ys => JVal.beq x y && JVal.beqElems xs ys
  | _, _ => false

/-- Pointwise `JVal.beq` on dictionary entries. -/
def JVal.beqFields : List (String × JVal) → List (String × JVal) → Bool
  | [], [] => true
  | (k1, v1) :: xs, (k2, v2) :: ys =>
    k1 == k2 && JVal.beq v1 v2 && JVal.beqFields xs ys
  | _, _ => false
end

/-- First binding of key `k` in a dictionary, as in Python `dict` lookup. -/
def lookupField (fs : List (String × JVal)) (k : String) : Option JVal :=
  (fs.find? (fun p => p.1 == k)).map Prod.snd

/-- Python `d.get(k, default)` on a dictionary given as an association list. -/
def getD (fs : List (String × JVal)) (k : String) (d : JVal) : JVal :=
  (lookupField fs k).getD d

/-- Python `v.get(k, default)`: only dictionaries have `.get`; any other
receiver raises `AttributeError`. -/
def pyGetD (v : JVal) (k : String) (d : JVal) : Except String JVal :=
  match v with
  | .obj fs => .ok (getD fs k d)
  | _ => .error "AttributeError"

/-- Python `k in v` for a string `k`: key test on dicts, membership on
lists, substring test on strings; `TypeError` otherwise. -/
def pyIn (k : String) (v : JVal) : Except String Bool :=
  match v with
  | .obj fs => .ok (fs.any (fun p => p.1 == k))
  | .arr l => .ok (l.any (fun x => JVal.beq x (JVal.str k)))
  | .str s => .ok (decide (k.toList <:+: s.toList))
  | _ => .error "TypeError"

/-- Python `v[k]` for a string subscript: dict lookup (`KeyError` when the
key is absent); lists and strings only take integer subscripts, so a string
subscript raises `TypeError`, as does any other receiver. -/
def pyIndex (v : JVal) (k : String) : Except String JVal :=
  match v with
  | .obj fs =>
    match lookupField fs k with
    | some x => .ok x
    | none => .error "KeyError"
  | _ => .error "TypeError"

/-- Python `len(v)`: defined on strings, lists and dicts. -/
def pyLen (v : JVal) : Except String Nat :=
  match v with
  | .str s => .ok s.length
  | .arr l => .ok l.length
  | .obj fs => .ok fs.length
  | _ => .error "TypeError"

/-- Python iteration `for x in v`: lists yield their elements, strings
their one-character substrings, dicts their keys. -/
def pyIter (v : JVal) : Except String (List JVal) :=
  match v with
  | .arr l => .ok l
  | .str s => .ok (s.toList.map (fun c => JVal.str (String.singleton c)))
  | .obj fs => .ok (fs.map (fun p => JVal.str p.1))
  | _ => .error "TypeError"

/-- Python truthiness of a value. -/
def pyTruthy (v : JVal) : Bool :=
  match v with
  | .str s => s != ""
  | .num n => n != 0
  | .bool b => b
  | .null => false
  | .arr l => !l.isEmpty
  | .obj fs => !fs.isEmpty

/-- Decimal digit list to a natural number, `none` on a non-digit. -/
def digitsToNat (acc : Nat) : List Char → Option Nat
  | [] => some acc
  | c :: cs => if c.isDigit then digitsToNat (acc * 10 + (c.toNat - 48)) cs else none

/-- Python `int(s)` on a string: optional surrounding whitespace, optional
sign, then decimal digits (digit-group underscores are not modelled). -/
def parseIntStr (s : String) : Option Int :=
  let cs := (s.toList.dropWhile Char.isWhitespace).reverse.dropWhile Char.isWhitespace |>.reverse
  match cs with
  | [] => none
  | '-' :: rest => if rest = [] then none else (digitsToNat 0 rest).map (fun n => -(n : Int))
  | '+' :: rest => if rest = [] then none else (digitsToNat 0 rest).map (fun n => (n : Int))
  | _ => (digitsToNat 0 cs).map (fun n => (n : Int))

/-- Python `int(v)`: identity on ints, 0/1 on bools, string parsing on
strings (`ValueError` when unparseable), `TypeError` on anything else. -/
def pyIntOf (v : JVal) : Except String Int :=
  match v with
  | .num n => .ok n
  | .bool b => .ok (if b then 1 else 0)
  | .str s =>
    match parseIntStr s with
    | some n => .ok n
    | none => .error "ValueError"
  | _ => .error "TypeError"

mutual
/-- Python `repr(v)` (as used by `str`/f-strings on containers).  String
escaping inside reprs is not modelled; no claim exercises it. -/
def pyRepr : JVal → String
  | .str s => "\x27" ++ s ++ "\x27"
  | .num n => toString n
  | .bool b => if b then "True" else "False"
  | .null => "None"
  | .arr l => "[" ++ pyReprElems l ++ "]"
  | .obj fs => "\x7b" ++ pyReprFields fs ++ "\x7d"

/-- Comma-separated reprs of list elements. -/
def pyReprElems : List JVal → String
  | [] => ""
  | [x] => pyRepr x
  | x :: y :: xs => pyRepr x ++ ", " ++ pyReprElems (y :: xs)

/-- Comma-separated reprs of dict entries. -/
def pyReprFields : List (String × JVal) → String
  | [] => ""
  | [(k, v)] => "\x27" ++ k ++ "\x27: " ++ pyRepr v
  | (k, v) :: y :: xs => "\x27" ++ k ++ "\x27: " ++ pyRepr v ++ ", " ++ pyReprFields (y :: xs)
end

/-- Python `str(v)` as interpolated by an f-string. -/
def pyStr : JVal → String
  | .str s => s
  | v => pyRepr v

/-- Whitespace skipped by the JSON parser. -/
def skipWs (cs : List Char) : List Char :=
  cs.dropWhile (fun c => c == ' ' || c == '\t' || c == '\n' || c == '\r')

/-- Scan a JSON string body up to the closing quote (escape sequences are
not modelled; no claim exercises them). -/
def scanStr (acc : List Char) : List Char → Option (String × List Char)
  | [] => none
  | c :: cs => if c == '"' then some (String.mk acc.reverse, cs) else scanStr (c :: acc) cs

/-- Scan a run of decimal digits. -/
def scanDigits (acc : List Char) : List Char → (List Char × List Char)
  | [] => (acc.reverse, [])
  | c :: cs => if c.isDigit then scanDigits (c :: acc) cs else (acc.reverse, c :: cs)

mutual
/-- Fuel-indexed recursive-descent parser for the JSON subset this app
exchanges: strings, integers, booleans, null, arrays, objects.  Fractions
and exponents are not modelled (no claim exercises floats). -/
def parseVal (fuel : Nat) (cs : List Char) : Option (JVal × List Char) :=
  match fuel with
  | 0 => none
  | fuel + 1 =>
    match skipWs cs with
    | [] => none
    | c :: rest =>
      if c == '"' then
        (scanStr [] rest).map (fun p => (JVal.str p.1, p.2))
      else if c == '\x7b' then
        match skipWs rest with
        | '\x7d' :: rest2 => some (JVal.obj [], rest2)
        | rest2 => (parseObjItems fuel rest2).map (fun p => (JVal.obj p.1, p.2))
      else if c == '[' then
        match skipWs rest with
        | ']' :: rest2 => some (JVal.arr [], rest2)
        | rest2 => (parseArrItems fuel rest2).map (fun p => (JVal.arr p.1, p.2))
      else if c == 't' then
        match rest with
        | 'r' :: 'u' :: 'e' :: rest2 => some (JVal.bool true, rest2)
        | _ => none
      else if c == 'f' then
        match rest with
        | 'a' :: 'l' :: 's' :: 'e' :: rest2 => some (JVal.bool false, rest2)
        | _ => none
      else if c == 'n' then
        match rest with
        | 'u' :: 'l' :: 'l' :: rest2 => some (JVal.null, rest2)
        | _ => none
      else if c == '-' then
        match scanDigits [] rest with
        | ([], _) => none
        | (ds, rest2) => (digitsToNat 0 ds).map (fun n => (JVal.num (-(n : Int)), rest2))
      else if c.isDigit then
        match scanDigits [] (c :: rest) with
        | ([], _) => none
        | (ds, rest2) => (digitsToNat 0 ds).map (fun n => (JVal.num (n : Int), rest2))
      else none

/-- Parse the items of a non-empty JSON array, after the opening bracket. -/
def parseArrItems (fuel : Nat) (cs : List Char) : Option (List JVal × List Char) :=
  match fuel with
  | 0 => none
  | fuel + 1 =>
    match parseVal fuel cs with
    | none => none
    | some (v, rest) =>
      match skipWs rest with
      | ',' :: rest2 => (parseArrItems fuel rest2).map (fun p => (v :: p.1, p.2))
      | ']' :: rest2 => some ([v], rest2)
      | _ => none

/-- Parse the entries of a non-empty JSON object, after the opening brace. -/
def parseObjItems (fuel : Nat) (cs : List Char) : Option (List (String × JVal) × List Char) :=
  match fuel with
  | 0 => none
  | fuel + 1 =>
    match skipWs cs with
    | '"' :: rest =>
      match scanStr [] rest with
      | none => none
      | some (k, rest2) =>
        match skipWs rest2 with
        | ':' :: rest3 =>
          match parseVal fuel rest3 with
          | none => none
          | some (v, rest4) =>
            match skipWs rest4 with
            | ',' :: rest5 => (parseObjItems fuel rest5).map (fun p => ((k, v) :: p.1, p.2))
            | '\x7d' :: rest5 => some ([(k, v)], rest5)
            | _ => none
        | _ => none
    | _ => none
end

/-- `json.loads` on a string: parse one value, then require only trailing
whitespace.  Error messages are modelled by the leading phrase of the
corresponding CPython message. -/
def jsonParse (s : String) : Except String JVal :=
  match parseVal (s.length + 1) s.toList with
  | none => .error "Expecting value"
  | some (v, rest) =>
    match skipWs rest with
    | [] => .ok v
    | _ => .error "Extra data"

/-- `json.loads(v)` on a Python value: only strings are accepted here
(`bytes` do not occur in this code path). -/
def jsonLoadsVal (v : JVal) : Except String JVal :=
  match v with
  | .str s => jsonParse s
  | _ => .error "TypeError"

/-- A Python dictionary, as an association list. -/
abbrev PyDict := List (String × JVal)

/-- One `st.*` rendering call made while displaying execution results.
`questionEv` carries the values interpolated into the two markdown lines
`f"**Question {question_id}**: {question}"` / `f"**Answer**: {answer}"`;
`followUpEv` carries the 0-based enumeration index and the values of the
two follow-up markdown lines; `sepEv` is the `"---"` separator. -/
inductive REvent where
  | headerEv (s : String)
  | subheaderEv (s : String)
  | successEv (s : String)
  | infoEv (s : String)
  | warningEv (s : String)
  | errorEv (s : String)
  | questionEv (qid q a : JVal)
  | followHeaderEv
  | followUpEv (idx : Nat) (q a : JVal)
  | sepEv

/-- Result of running a block of rendering statements: the events emitted
before control left the block, and the message of the exception that
escaped it, if any. -/
structure Emits where
  evs : List REvent
  err : Option String

/-- A block that emits nothing and raises nothing. -/
def Emits.done : Emits := ⟨[], none⟩

/-- A block that emits one event. -/
def emit1 (e : REvent) : Emits := ⟨[e], none⟩

/-- Sequencing of blocks: a raised exception skips the rest. -/
def Emits.andThen (a b : Emits) : Emits :=
  match a.err with
  | some _ => a
  | none => ⟨a.evs ++ b.evs, b.err⟩

/-- Evaluate a fallible Python expression, then continue; an exception
propagates out of the block. -/
def withVal {α : Type} (x : Except String α) (f : α → Emits) : Emits :=
  match x with
  | .error m => ⟨[], some m⟩
  | .ok v => f v

/-- One iteration of the follow-up loop (app.py lines 329-334 and the two
copies at 363-368 and 399-404): `fu_item.get('question','N/A').get('S','N/A')`
followed by `fu_item.get('answer','N/A')`, then the two markdown lines. -/
def renderFollowUp (idx : Nat) (fu_item : JVal) : Emits :=
  withVal (pyGetD fu_item "question" (.str "N/A")) fun qv =>
  withVal (pyGetD qv "S" (.str "N/A")) fun sv =>
  withVal (pyGetD fu_item "answer" (.str "N/A")) fun av =>
  emit1 (.followUpEv idx sv av)

/-- The `for idx, fu_item in enumerate(follow_up)` loop. -/
def renderFollowUps (idx : Nat) : List JVal → Emits
  | [] => Emits.done
  | x :: xs => (renderFollowUp idx x).andThen (renderFollowUps (idx + 1) xs)

/-- Rendering of one question body dictionary (app.py lines 315-336; the
same statements are duplicated verbatim at lines 350-370 and 386-406):
question/answer markdown, the follow-up section when
`follow_up and len(follow_up) > 0`, then the `"---"` separator. -/
def renderQuestionBody (body : PyDict) : Emits :=
  let qid := getD body "question_id" (.str "N/A")
  let q := getD body "question" (.str "N/A")
  let a := getD body "answer" (.str "N/A")
  (emit1 (.questionEv qid q a)).andThen
    ((let fu := getD body "follow-up" (.arr [])
      if pyTruthy fu then
        withVal (pyLen fu) fun n =>
        if n > 0 then
          (emit1 .followHeaderEv).andThen
            (withVal (pyIter fu) fun items => renderFollowUps 0 items)
        else Emits.done
      else Emits.done).andThen
      (emit1 .sepEv))

/-- The question-collection loop of the equal-length branch (app.py lines
302-309): keep `item['body']` whenever `'body' in item` and the body is a
dict. -/
def collectBodies : List JVal → Except String (List PyDict)
  | [] => .ok []
  | item :: rest =>
    match pyIn "body" item with
    | .error m => .error m
    | .ok false => collectBodies rest
    | .ok true =>
      match pyIndex item "body" with
      | .error m => .error m
      | .ok (.obj fs) => (collectBodies rest).map (fs :: ·)
      | .ok _ => collectBodies rest

/-- The sort key `int(q.get('question_id', '0'))` (app.py line 312). -/
def qidKey (b : PyDict) : Except String Int :=
  pyIntOf (getD b "question_id" (.str "0"))

/-- Key computation of `sorted(questions, key=...)`: CPython evaluates the
key of every element, in list order, before comparing. -/
def keyedBodies : List PyDict → Except String (List (Int × PyDict))
  | [] => .ok []
  | b :: rest =>
    match qidKey b with
    | .error m => .error m
    | .ok k => (keyedBodies rest).map ((k, b) :: ·)

/-- Comparison of keyed questions by their integer key. -/
def keyLE (a b : Int × PyDict) : Prop := a.1 ≤ b.1

instance : DecidableRel keyLE := fun a b => inferInstanceAs (Decidable (a.1 ≤ b.1))

instance : IsTotal (Int × PyDict) keyLE := ⟨fun a b => le_total a.1 b.1⟩

instance : IsTrans (Int × PyDict) keyLE := ⟨fun _ _ _ h1 h2 => le_trans h1 h2⟩

/-- `sorted(questions, key=lambda q: int(q.get('question_id','0')))`
(app.py line 312): a stable sort on the precomputed integer keys,
modelled by insertion sort, which is stable. -/
def sortBodies (bs : List PyDict) : Except String (List PyDict) :=
  (keyedBodies bs).map (fun kbs => (List.insertionSort keyLE kbs).map Prod.snd)

/-- The `for body in sorted_questions` display loop (app.py lines 315-336). -/
def emitsBodies : List PyDict → Emits
  | [] => Emits.done
  | b :: rest => (renderQuestionBody b).andThen (emitsBodies rest)

/-- One topic of the equal-length branch (app.py lines 298-336):
subheader with the topic name, collect the bodies, sort by question id,
display. -/
def renderTopicEq (name : JVal) (td : JVal) : Emits :=
  (emit1 (.subheaderEv (pyStr name))).andThen
    (withVal (pyIter td) fun items =>
     withVal (collectBodies items) fun bodies =>
     withVal (sortBodies bodies) fun sortedBs =>
     emitsBodies sortedBs)

/-- The `zip(topics, topics_data)` loop of the equal-length branch. -/
def renderPairs : List (JVal × JVal) → Emits
  | [] => Emits.done
  | (n, td) :: rest => (renderTopicEq n td).andThen (renderPairs rest)

/-- One item of the fallback display loops (app.py lines 344-370, duplicated
at 380-406): render the body inline, without sorting, when `'body' in item`
and the body is a dict; otherwise skip the item silently. -/
def renderItemFallback (item : JVal) : Emits :=
  withVal (pyIn "body" item) fun has =>
  if has then
    withVal (pyIndex item "body") fun body =>
    match body with
    | .obj fs => renderQuestionBody fs
    | _ => Emits.done
  else Emits.done

/-- The `for item in topic_data` loop of the fallback branches. -/
def emitsItemsFallback : List JVal → Emits
  | [] => Emits.done
  | item :: rest => (renderItemFallback item).andThen (emitsItemsFallback rest)

/-- One topic of the fallback branches (app.py lines 340-370 and 376-406):
positional `"Topic {idx+1}"` subheader, then the items in input order. -/
def renderTopicFallback (idx : Nat) (td : JVal) : Emits :=
  (emit1 (.subheaderEv ("Topic " ++ toString (idx + 1)))).andThen
    (withVal (pyIter td) fun items => emitsItemsFallback items)

/-- The `for topic_idx, topic_data in enumerate(topics_data)` loop of the
fallback branches. -/
def renderTopicsFallback (idx : Nat) : List JVal → Emits
  | [] => Emits.done
  | td :: rest => (renderTopicFallback idx td).andThen (renderTopicsFallback (idx + 1) rest)

/-- The body of the SUCCEEDED display logic on a parsed `output` value
(app.py lines 289-406): equal-length pairing branch, mismatched-length
fallback with a warning, and topics-absent fallback. -/
def renderOutputBody (output : JVal) : Emits :=
  withVal (pyIn "topic_results" output) fun hasTR =>
  if hasTR then
    withVal (pyIn "topics" output) fun hasT =>
    if hasT then
      (emit1 (.headerEv "Processing Results")).andThen
        (withVal (pyIndex output "topics") fun topics =>
         withVal (pyIndex output "topic_results") fun topicsData =>
         withVal (pyLen topics) fun lt =>
         withVal (pyLen topicsData) fun ltd =>
         if lt = ltd then
           withVal (pyIter topics) fun tl =>
           withVal (pyIter topicsData) fun tdl =>
           renderPairs (tl.zip tdl)
         else
           (emit1 (.warningEv "Topic names and data lengths don\x27t match. Displaying data without topic names.")).andThen
             (withVal (pyIter topicsData) fun tdl => renderTopicsFallback 0 tdl))
    else
      (emit1 (.headerEv "Processing Results")).andThen
        (withVal (pyIndex output "topic_results") fun topicsData =>
         withVal (pyIter topicsData) fun tdl => renderTopicsFallback 0 tdl)
  else Emits.done

/-- The `except` handler around a block: on an escaping exception, the
events already emitted stay visible and `st.warning(prefix + str(e))` is
appended. -/
def runCatch (e : Emits) (warnPre : String) : List REvent :=
  match e.err with
  | none => e.evs
  | some m => e.evs ++ [.warningEv (warnPre ++ m)]

/-- The try-block of the SUCCEEDED branch (app.py lines 281-406), given the
outcome of `describe_execution`: read `response.get('output','{}')`,
`json.loads` it, then display. -/
def succeededBody (desc : Except String JVal) : Emits :=
  withVal desc fun resp =>
  withVal (pyGetD resp "output" (.str "\x7b\x7d")) fun ov =>
  withVal (jsonLoadsVal ov) fun output =>
  renderOutputBody output

/-- The SUCCEEDED branch after the success banner (app.py lines 280-408),
with its `except` clause `st.warning(f"Could not parse execution output: ...")`. -/
def renderSucceededSection (desc : Except String JVal) : List REvent :=
  runCatch (succeededBody desc) "Could not parse execution output: "

/-- The try-block of the FAILED branch (app.py lines 414-421):
`json.loads(response.get('error','{}'))`, then the same for `'cause'`,
then `st.error(f"Error: {error}")` and `st.error(f"Cause: {cause}")`. -/
def failedBody (desc : Except String JVal) : Emits :=
  withVal desc fun resp =>
  withVal (pyGetD resp "error" (.str "\x7b\x7d")) fun ev =>
  withVal (jsonLoadsVal ev) fun errJ =>
  withVal (pyGetD resp "cause" (.str "\x7b\x7d")) fun cv =>
  withVal (jsonLoadsVal cv) fun causeJ =>
  (emit1 (.errorEv ("Error: " ++ pyStr errJ))).andThen
    (emit1 (.errorEv ("Cause: " ++ pyStr causeJ)))

/-- The FAILED branch (app.py lines 410-423): the failure banner, then the
try-block with its `except` clause
`st.warning(f"Could not parse error details: ...")`. -/
def renderFailedSection (desc : Except String JVal) : List REvent :=
  .errorEv "Processing failed." :: runCatch (failedBody desc) "Could not parse error details: "

/-- The per-session state the claims are about (`st.session_state` keys
`session_id`, `uploaded_files`, `execution_arn`, `execution_status`,
`auto_check`). -/
structure AppState where
  session_id : Option String
  uploaded_files : List String
  execution_arn : Option String
  execution_status : Option String
  auto_check : Bool

/-- Python truthiness of the stored `execution_arn`
(`if not st.session_state.execution_arn`). -/
def arnTruthy (o : Option String) : Bool :=
  match o with
  | none => false
  | some a => a != ""

/-- The four terminal execution statuses
`['SUCCEEDED', 'FAILED', 'TIMED_OUT', 'ABORTED']`. -/
def terminalStatuses : List String := ["SUCCEEDED", "FAILED", "TIMED_OUT", "ABORTED"]

/-- `auto_check_status` (app.py lines 76-100), given the outcome of this
poll's `describe_execution` call: returns the updated session state and the
function's return value (`None` on early exit or on a caught error). -/
def auto_check_status (s : AppState) (r : Except String String) : AppState × Option String :=
  if !arnTruthy s.execution_arn then (s, none)
  else
    match r with
    | .error _ => ({s with auto_check := false}, none)
    | .ok cur =>
      let s1 := {s with execution_status := some cur}
      if cur ∈ terminalStatuses then ({s1 with auto_check := false}, some cur)
      else (s1, some cur)

/-- Outcome of one pass over the automatic-check block (app.py lines
133-144). -/
inductive Tick where
  | noPoll
  | rerunNow (s : AppState)
  | rerunAfterDelay (s : AppState) (secs : Nat)

/-- One render pass over the automatic-check block (app.py lines 133-144):
when `auto_check` and `execution_arn` hold, poll once; a terminal status
reruns at once, anything else (including the `None` returned on a poll
error) sleeps 2 seconds and reruns. -/
def autoCheckTick (s : AppState) (r : Except String String) : Tick :=
  if s.auto_check && arnTruthy s.execution_arn then
    let p := auto_check_status s r
    match p.2 with
    | some st2 => if st2 ∈ terminalStatuses then .rerunNow p.1 else .rerunAfterDelay p.1 2
    | none => .rerunAfterDelay p.1 2
  else .noPoll

/-- One widget of the execution-status panel: either an `st.*` message
event, the status line, the auto-check spinner, or a button. -/
inductive PEvent where
  | rEv (e : REvent)
  | statusLineEv (s : String)
  | spinnerEv
  | buttonEv (s : String)

/-- The execution-status panel (app.py lines 260-439), given the outcome
`desc` of the `describe_execution` call its SUCCEEDED/FAILED branches make:
status line, auto-check spinner for RUNNING, then exactly one of the
SUCCEEDED / FAILED / manual-RUNNING branches; the manual
"Check Status Manually" button exists only in the last. -/
def statusPanel (s : AppState) (desc : Except String JVal) : List PEvent :=
  if arnTruthy s.execution_arn then
    match s.execution_status with
    | some stx =>
      if stx != "" then
        [PEvent.statusLineEv stx]
          ++ (if s.auto_check && stx == "RUNNING" then
                [PEvent.spinnerEv,
                 PEvent.rEv (.infoEv "The system is analyzing your documents. Please wait.")]
              else [])
          ++ (if stx == "SUCCEEDED" then
                PEvent.rEv (.successEv "Processing completed successfully!")
                  :: (renderSucceededSection desc).map PEvent.rEv
              else if stx == "FAILED" then
                (renderFailedSection desc).map PEvent.rEv
              else if stx == "RUNNING" then
                if !s.auto_check then
                  [PEvent.rEv (.infoEv "Processing is running."),
                   PEvent.buttonEv "Check Status Manually"]
                else []
              else [])
      else [PEvent.rEv (.infoEv "Awaiting status update...")]
    | none => [PEvent.rEv (.infoEv "Awaiting status update...")]
  else []

/-- Python `text.strip()`: drop leading and trailing whitespace (Python
also strips `\\x0b`/`\\f`, which do not occur here). -/
def pyStrip (s : String) : String :=
  String.mk ((s.toList.dropWhile Char.isWhitespace).reverse.dropWhile Char.isWhitespace).reverse

/-- One UI event of the upload/launch flow: an `upload_status.text` line, a
progress-bar update (recorded as the numerator/denominator whose quotient
the code passes to `upload_progress.progress`), an `st.error`, an
`st.info`/`st.success` message. -/
inductive SEvent where
  | statusTextEv (s : String)
  | progressEv (done total : Nat)
  | errorEv (s : String)
  | infoEv (s : String)
  | successEv (s : String)

/-- Result of the staging block: the collected `file_paths` and the UI
events emitted. -/
structure StageOut where
  file_paths : List String
  events : List SEvent

/-- The `for file in uploaded_files` loop (app.py lines 193-211), given
each upload's outcome: emit the status line, then on success append the
key and report progress `files_processed/total_files`; on failure emit an
item-scoped `st.error` and continue.  Returns the keys, the events, and
the final `files_processed` counter. -/
def stageFiles (sid : String) (total : Nat) :
    List (String × Except String Unit) → Nat → List String × List SEvent × Nat
  | [], done => ([], [], done)
  | (name, out) :: rest, done =>
    let key := sid ++ "/" ++ name
    match out with
    | .ok _ =>
      let r := stageFiles sid total rest (done + 1)
      (key :: r.1,
       .statusTextEv ("Uploading " ++ name ++ "...") :: .progressEv (done + 1) total :: r.2.1,
       r.2.2)
    | .error e =>
      let r := stageFiles sid total rest done
      (r.1,
       .statusTextEv ("Uploading " ++ name ++ "...")
         :: .errorEv ("Error uploading " ++ name ++ ": " ++ e) :: r.2.1,
       r.2.2)

/-- The staging block (app.py lines 156-211): the user text, when non-empty
after stripping, is wrapped as `user_input_{int(time.time())}.txt` and
staged first under `"{session_id}/{filename}"`; then each uploaded file is
staged under `"{session_id}/{file.name}"`.  `t` is the integer timestamp;
`textOutcome` and the outcome in each `files` entry are the results of the
corresponding storage uploads. -/
def stage (sid : String) (text : String) (t : Nat)
    (textOutcome : Except String Unit)
    (files : List (String × Except String Unit)) : StageOut :=
  let total := files.length + (if pyStrip text = "" then 0 else 1)
  let first :
      List String × List SEvent × Nat :=
    if pyStrip text = "" then ([], [], 0)
    else
      let fn := "user_input_" ++ toString t ++ ".txt"
      let key := sid ++ "/" ++ fn
      match textOutcome with
      | .ok _ =>
        ([key],
         [.statusTextEv ("Uploading user-entered text as " ++ fn ++ "..."),
          .progressEv 1 total], 1)
      | .error e =>
        ([],
         [.statusTextEv ("Uploading user-entered text as " ++ fn ++ "..."),
          .errorEv ("Error uploading user text: " ++ e)], 0)
  let r := stageFiles sid total files first.2.2
  ⟨first.1 ++ r.1, first.2.1 ++ r.2.1⟩

/-- The processing block behind the "Process Content" button (app.py lines
148-257): store the fresh session id, stage the content, and when at least
one key was staged, store `uploaded_files` and start the Step Function
execution; `launchR` is the outcome of `start_execution`.  On a successful
launch the handle is stored and `auto_check` enabled; on a launch error an
`st.error` is shown and the execution fields are left untouched. -/
def processSubmission (s0 : AppState) (sid : String) (text : String) (t : Nat)
    (textOutcome : Except String Unit)
    (files : List (String × Except String Unit))
    (launchR : Except String String) : AppState × List SEvent :=
  let s1 := {s0 with session_id := some sid}
  let stg := stage sid text t textOutcome files
  if stg.file_paths.isEmpty then
    (s1, stg.events ++ [.errorEv "No content was successfully uploaded. Please try again."])
  else
    let s2 := {s1 with uploaded_files := stg.file_paths}
    let evs := stg.events
      ++ [.statusTextEv "All content uploaded successfully!",
          .infoEv "Starting document processing pipeline..."]
    match launchR with
    | .ok arn =>
      ({s2 with execution_arn := some arn, auto_check := true},
       evs ++ [.successEv "Processing pipeline started successfully!"])
    | .error e =>
      (s2, evs ++ [.errorEv ("Error starting Step Function: " ++ e)])

/-- The key pattern `"{session_id}/user_input_*.txt"` of testable property
2 of the spec. -/
def isUserInputKey (sid key : String) : Bool :=
  (sid ++ "/user_input_").toList.isPrefixOf key.toList
    && ".txt".toList.reverse.isPrefixOf key.toList.reverse

/-- The question ids carried by the rendered question events, in display
order. -/
def questionIdsOf (evs : List REvent) : List JVal :=
  evs.filterMap (fun e =>
    match e with
    | .questionEv qid _ _ => some qid
    | _ => none)

/-- Split a rendered event list at its `st.subheader` calls: the events
before the first subheader, then one segment per topic subheader. -/
def topicSegments : List REvent → List (List REvent)
  | [] => [[]]
  | e :: rest =>
    match e with
    | .subheaderEv _ => [] :: topicSegments rest
    | _ =>
      match topicSegments rest with
      | s :: ss => (e :: s) :: ss
      | [] => [[e]]

/-- The progress-bar updates among the staging events, as
numerator/denominator pairs. -/
def progressReports (evs : List SEvent) : List (Nat × Nat) :=
  evs.filterMap (fun e =>
    match e with
    | .progressEv d tot => some (d, tot)
    | _ => none)

/-- Number of `st.error` render events whose text starts with `p`. -/
def countErrorsWithPre (p : String) (evs : List REvent) : Nat :=
  evs.countP (fun e =>
    match e with
    | .errorEv s => p.toList.isPrefixOf s.toList
    | _ => false)

/-- Python `isinstance(v, dict)`. -/
def isDictVal : JVal → Bool
  | .obj _ => true
  | _ => false

/-- Whether an upload outcome succeeded. -/
def isOkOutcome : Except String Unit → Bool
  | .ok _ => true
  | .error _ => false

/-- The denominator `total_files` of the staging progress updates. -/
def totalItems (text : String) (files : List (String × Except String Unit)) : Nat :=
  files.length + (if pyStrip text = "" then 0 else 1)

/-- How many items of a submission upload successfully. -/
def successCount (text : String) (textOutcome : Except String Unit)
    (files : List (String × Except String Unit)) : Nat :=
  (if pyStrip text = "" then 0 else if isOkOutcome textOutcome then 1 else 0)
    + files.countP (fun p => isOkOutcome p.2)

theorem Emits.done_andThen (b : Emits) : Emits.done.andThen b = b := by
  cases b; rfl

theorem Emits.andThen_err_none {a b : Emits} :
    (a.andThen b).err = none ↔ a.err = none ∧ b.err = none := by
  cases a with
  | mk evs err =>
    cases err with
    | none => simp [Emits.andThen]
    | some m => simp [Emits.andThen]

theorem Emits.andThen_evs_of_err_none {a : Emits} (b : Emits) (h : a.err = none) :
    (a.andThen b).evs = a.evs ++ b.evs := by
  cases a with
  | mk evs err => cases err <;> simp_all [Emits.andThen]

theorem emit1_andThen_evs (e : REvent) (b : Emits) :
    ((emit1 e).andThen b).evs = e :: b.evs := rfl

theorem emit1_andThen_err (e : REvent) (b : Emits) :
    ((emit1 e).andThen b).err = b.err := rfl

theorem questionIdsOf_append (a b : List REvent) :
    questionIdsOf (a ++ b) = questionIdsOf a ++ questionIdsOf b :=
  List.filterMap_append a b _

theorem questionIdsOf_renderFollowUp (idx : Nat) (x : JVal) :
    questionIdsOf (renderFollowUp idx x).evs = [] := by
  unfold renderFollowUp
  cases h1 : pyGetD x "question" (.str "N/A") with
  | error m => simp [withVal, h1, questionIdsOf]
  | ok qv =>
    cases h2 : pyGetD qv "S" (.str "N/A") with
    | error m => simp [withVal, h1, h2, questionIdsOf]
    | ok sv =>
      cases h3 : pyGetD x "answer" (.str "N/A") with
      | error m => simp [withVal, h1, h2, h3, questionIdsOf]
      | ok av => simp [withVal, h1, h2, h3, emit1, questionIdsOf]

theorem questionIdsOf_renderFollowUps (l : List JVal) (idx : Nat) :
    questionIdsOf (renderFollowUps idx l).evs = [] := by
  induction l generalizing idx with
  | nil => simp [renderFollowUps, Emits.done, questionIdsOf]
  | cons x xs ih =>
    unfold renderFollowUps
    cases h : (renderFollowUp idx x).err with
    | some m =>
      have : (renderFollowUp idx x).andThen (renderFollowUps (idx + 1) xs)
          = renderFollowUp idx x := by
        unfold Emits.andThen; rw [h]
      rw [this, questionIdsOf_renderFollowUp]
    | none =>
      rw [Emits.andThen_evs_of_err_none _ h, questionIdsOf_append,
        questionIdsOf_renderFollowUp, ih]
      rfl

theorem questionIdsOf_renderQuestionBody (b : PyDict) :
    questionIdsOf (renderQuestionBody b).evs = [getD b "question_id" (.str "N/A")] := by
  unfold renderQuestionBody
  rw [emit1_andThen_evs]
  have hmid : ∀ y : Emits, questionIdsOf y.evs = [] →
      questionIdsOf (y.andThen (emit1 .sepEv)).evs = [] := by
    intro y hy
    cases hyerr : y.err with
    | some m =>
      have : y.andThen (emit1 .sepEv) = y := by unfold Emits.andThen; rw [hyerr]
      rw [this, hy]
    | none =>
      rw [Emits.andThen_evs_of_err_none _ hyerr, questionIdsOf_append, hy]
      simp [emit1, questionIdsOf]
  have hfu : questionIdsOf
      (if pyTruthy (getD b "follow-up" (.arr [])) then
        withVal (pyLen (getD b "follow-up" (.arr []))) fun n =>
        if n > 0 then
          (emit1 .followHeaderEv).andThen
            (withVal (pyIter (getD b "follow-up" (.arr []))) fun items =>
              renderFollowUps 0 items)
        else Emits.done
      else Emits.done).evs = [] := by
    split
    · cases hl : pyLen (getD b "follow-up" (.arr [])) with
      | error m => simp [withVal, questionIdsOf]
      | ok n =>
        simp only [withVal]
        split
        · rw [emit1_andThen_evs]
          cases hi : pyIter (getD b "follow-up" (.arr [])) with
          | error m => simp [withVal, questionIdsOf]
          | ok items =>
            simp only [withVal]
            simp [questionIdsOf, questionIdsOf_renderFollowUps items 0]
            have := questionIdsOf_renderFollowUps items 0
            simpa [questionIdsOf] using this
        · simp [Emits.done, questionIdsOf]
    · simp [Emits.done, questionIdsOf]
  simp only [questionIdsOf, List.filterMap_cons]
  have := hmid _ hfu
  simpa [questionIdsOf] using this

theorem emitsItemsFallback_evs : ∀ (items : List JVal) (bodies : List PyDict),
    collectBodies items = .ok bodies →
    (emitsItemsFallback items).err = none →
    (emitsItemsFallback items).evs = bodies.flatMap (fun b => (renderQuestionBody b).evs)
  | [], bodies, hc, _ => by
    simp [collectBodies] at hc
    subst hc
    rfl
  | item :: rest, bodies, hc, herr => by
    rw [emitsItemsFallback] at herr ⊢
    have hsplit := Emits.andThen_err_none.mp herr
    rw [Emits.andThen_evs_of_err_none _ hsplit.1]
    rw [collectBodies] at hc
    cases hin : pyIn "body" item with
    | error m => rw [hin] at hc; exact absurd hc (by simp)
    | ok has =>
      rw [hin] at hc
      cases has with
      | false =>
        have : renderItemFallback item = Emits.done := by
          unfold renderItemFallback; rw [hin]; rfl
        rw [this]
        simpa using emitsItemsFallback_evs rest bodies hc hsplit.2
      | true =>
        cases hidx : pyIndex item "body" with
        | error m => rw [hidx] at hc; exact absurd hc (by simp)
        | ok body =>
          rw [hidx] at hc
          cases body with
          | obj fs =>
            have hbodies : ∃ bs, collectBodies rest = .ok bs ∧ bodies = fs :: bs := by
              cases hcr : collectBodies rest with
              | error m => rw [hcr] at hc; exact absurd hc (by simp [Except.map])
              | ok bs =>
                rw [hcr] at hc
                simp only [Except.map] at hc
                exact ⟨bs, rfl, by injection hc with h2; exact h2.symm⟩
            obtain ⟨bs, hcr, hb⟩ := hbodies
            have : renderItemFallback item = renderQuestionBody fs := by
              unfold renderItemFallback; rw [hin]; simp [withVal, hidx]
            rw [this, hb]
            simp [emitsItemsFallback_evs rest bs hcr hsplit.2]
          | str s =>
            have : renderItemFallback item = Emits.done := by
              unfold renderItemFallback; rw [hin]; simp [withVal, hidx]
            rw [this]
            simpa using emitsItemsFallback_evs rest bodies hc hsplit.2
          | num n =>
            have : renderItemFallback item = Emits.done := by
              unfold renderItemFallback; rw [hin]; simp [withVal, hidx]
            rw [this]
            simpa using emitsItemsFallback_evs rest bodies hc hsplit.2
          | bool b =>
            have : renderItemFallback item = Emits.done := by
              unfold renderItemFallback; rw [hin]; simp [withVal, hidx]
            rw [this]
            simpa using emitsItemsFallback_evs rest bodies hc hsplit.2
          | null =>
            have : renderItemFallback item = Emits.done := by
              unfold renderItemFallback; rw [hin]; simp [withVal, hidx]
            rw [this]
            simpa using emitsItemsFallback_evs rest bodies hc hsplit.2
          | arr l =>
            have : renderItemFallback item = Emits.done := by
              unfold renderItemFallback; rw [hin]; simp [withVal, hidx]
            rw [this]
            simpa using emitsItemsFallback_evs rest bodies hc hsplit.2

theorem keyedBodies_map_snd : ∀ (bs : List PyDict) (kbs : List (Int × PyDict)),
    keyedBodies bs = .ok kbs → kbs.map Prod.snd = bs
  | [], kbs, h => by
    simp only [keyedBodies] at h
    injection h with h
    subst h
    rfl
  | b :: rest, kbs, h => by
    rw [keyedBodies] at h
    cases hq : qidKey b with
    | error m => rw [hq] at h; exact absurd h (by simp)
    | ok k =>
      rw [hq] at h
      cases hr : keyedBodies rest with
      | error m => rw [hr] at h; exact absurd h (by simp [Except.map])
      | ok krest =>
        rw [hr] at h
        simp only [Except.map] at h
        injection h with h
        subst h
        simp [keyedBodies_map_snd rest krest hr]

theorem questionIdsOf_emitsBodies (bs : List PyDict)
    (herr : (emitsBodies bs).err = none) :
    questionIdsOf (emitsBodies bs).evs
      = bs.map (fun b => getD b "question_id" (.str "N/A")) := by
  induction bs with
  | nil => rfl
  | cons b rest ih =>
    rw [emitsBodies] at herr ⊢
    have hsplit := Emits.andThen_err_none.mp herr
    rw [Emits.andThen_evs_of_err_none _ hsplit.1, questionIdsOf_append,
      questionIdsOf_renderQuestionBody, ih hsplit.2]
    rfl

theorem stageFiles_append (sid : String) (total : Nat)
    (xs ys : List (String × Except String Unit)) (done : Nat) :
    stageFiles sid total (xs ++ ys) done =
      ((stageFiles sid total xs done).1
          ++ (stageFiles sid total ys (stageFiles sid total xs done).2.2).1,
        (stageFiles sid total xs done).2.1
          ++ (stageFiles sid total ys (stageFiles sid total xs done).2.2).2.1,
        (stageFiles sid total ys (stageFiles sid total xs done).2.2).2.2) := by
  induction xs generalizing done with
  | nil => simp [stageFiles]
  | cons p rest ih =>
    obtain ⟨name, out⟩ := p
    cases out with
    | ok u => simp [stageFiles, ih]
    | error e => simp [stageFiles, ih]

theorem stageFiles_allOk (sid : String) (total : Nat)
    (xs : List (String × Except String Unit)) (done : Nat)
    (h : ∀ p ∈ xs, isOkOutcome p.2 = true) :
    (stageFiles sid total xs done).1 = xs.map (fun p => sid ++ "/" ++ p.1) ∧
    (stageFiles sid total xs done).2.2 = done + xs.length := by
  induction xs generalizing done with
  | nil => simp [stageFiles]
  | cons p rest ih =>
    obtain ⟨name, out⟩ := p
    have hp : isOkOutcome out = true := h (name, out) (by simp)
    cases out with
    | error e => simp [isOkOutcome] at hp
    | ok u =>
      have hr := ih (done + 1) (fun q hq => h q (by simp [hq]))
      simp [stageFiles, hr.1, hr.2]
      omega

theorem stageFiles_progress (sid : String) (total : Nat)
    (xs : List (String × Except String Unit)) (done : Nat) :
    progressReports (stageFiles sid total xs done).2.1
      = (List.range' (done + 1) (xs.countP (fun p => isOkOutcome p.2))).map
          (fun k => (k, total)) := by
  induction xs generalizing done with
  | nil => simp [stageFiles, progressReports]
  | cons p rest ih =>
    obtain ⟨name, out⟩ := p
    cases out with
    | ok u =>
      have : ((name, Except.ok u) :: rest).countP (fun p => isOkOutcome p.2)
          = rest.countP (fun p => isOkOutcome p.2) + 1 := by
        simp [List.countP_cons, isOkOutcome]
      rw [this]
      have hr : List.range' (done + 1) (rest.countP (fun p => isOkOutcome p.2) + 1)
          = (done + 1) :: List.range' (done + 2) (rest.countP (fun p => isOkOutcome p.2)) := rfl
      rw [hr]
      have hrec := ih (done + 1)
      simp only [stageFiles, progressReports, List.filterMap_cons] at hrec ⊢
      simp [hrec]
    | error e =>
      have : ((name, Except.error e) :: rest).countP (fun p => isOkOutcome p.2)
          = rest.countP (fun p => isOkOutcome p.2) := by
        simp [List.countP_cons, isOkOutcome]
      rw [this]
      simp only [stageFiles, progressReports, List.filterMap_cons]
      exact ih done

theorem toList_append (a b : String) : (a ++ b).toList = a.toList ++ b.toList := by
  simp [String.toList, String.data_append]

/-- C6: during staging, a per-item upload failure is reported as an
item-scoped error, does not abort staging of the remaining items, and the
failed item is excluded from the returned key list: when exactly one of M
files fails to upload, the M-1 keys of the other files are returned, in
order and unaffected, and an `st.error` naming the failed file is emitted. -/
theorem C6_item_failure_isolated (sid : String) (t : Nat)
    (pre post : List (String × Except String Unit)) (fname emsg : String)
    (hpre : ∀ p ∈ pre, isOkOutcome p.2 = true)
    (hpost : ∀ p ∈ post, isOkOutcome p.2 = true) :
    (stage sid "" t (.ok ()) (pre ++ (fname, .error emsg) :: post)).file_paths
      = (pre ++ post).map (fun p => sid ++ "/" ++ p.1)
    ∧ (stage sid "" t (.ok ()) (pre ++ (fname, .error emsg) :: post)).file_paths.length
      = (pre ++ (fname, .error emsg) :: post).length - 1
    ∧ SEvent.errorEv ("Error uploading " ++ fname ++ ": " ++ emsg)
      ∈ (stage sid "" t (.ok ()) (pre ++ (fname, .error emsg) :: post)).events := by
  have hstage : ∀ files : List (String × Except String Unit),
      stage sid "" t (.ok ()) files
        = ⟨(stageFiles sid files.length files 0).1,
           (stageFiles sid files.length files 0).2.1⟩ := by
    intro files
    rfl
  set files := pre ++ (fname, .error emsg) :: post with hfiles
  set total := files.length with htotal
  have happ := stageFiles_append sid total pre ((fname, .error emsg) :: post) 0
  have hpaths := (stageFiles_allOk sid total pre 0 hpre).1
  have hdone := (stageFiles_allOk sid total pre 0 hpre).2
  have hmid : stageFiles sid total ((fname, .error emsg) :: post) (stageFiles sid total pre 0).2.2
      = ((stageFiles sid total post (stageFiles sid total pre 0).2.2).1,
         .statusTextEv ("Uploading " ++ fname ++ "...")
           :: .errorEv ("Error uploading " ++ fname ++ ": " ++ emsg)
           :: (stageFiles sid total post (stageFiles sid total pre 0).2.2).2.1,
         (stageFiles sid total post (stageFiles sid total pre 0).2.2).2.2) := by
    rw [stageFiles]
  have hpostpaths := (stageFiles_allOk sid total post (stageFiles sid total pre 0).2.2 hpost).1
  refine ⟨?_, ?_, ?_⟩
  · rw [hstage files, hfiles, happ]
    simp only []
    rw [hpaths, hmid]
    simp [hpostpaths]
  · rw [hstage files, hfiles, happ]
    simp only []
    rw [hpaths, hmid]
    simp [hpostpaths]
    rw [htotal, hfiles]
    simp
    try omega
  · rw [hstage files, hfiles, happ]
    simp only []
    rw [hmid]
    simp

theorem C6_witness :
    (stage "s" "" 0 (.ok ())
        [("a.txt", .ok ()), ("b.txt", .error "boom"), ("c.txt", .ok ())]).file_paths
      = ["s/a.txt", "s/c.txt"]
    ∧ SEvent.errorEv "Error uploading b.txt: boom"
      ∈ (stage "s" "" 0 (.ok ())
          [("a.txt", .ok ()), ("b.txt", .error "boom"), ("c.txt", .ok ())]).events := by
  have h := C6_item_failure_isolated "s" 0 [("a.txt", .ok ())] [("c.txt", .ok ())] "b.txt" "boom"
    (by rintro p hp; simp only [List.mem_singleton] at hp; subst hp; rfl)
    (by rintro p hp; simp only [List.mem_singleton] at hp; subst hp; rfl)
  exact ⟨h.1, h.2.2⟩

/-- C8 (amended): upload progress is reported as
(successes so far)/total_items after each successfully uploaded item of the
submission — the synthetic text item and every uploaded file alike — and a
failed item produces an item-scoped error message but no progress report. -/
theorem C8_progress_after_success (sid text : String) (t : Nat)
    (textOutcome : Except String Unit) (files : List (String × Except String Unit)) :
    progressReports (stage sid text t textOutcome files).events
      = (List.range' 1 (successCount text textOutcome files)).map
          (fun k => (k, totalItems text files)) := by
  by_cases h : pyStrip text = ""
  · have ht : totalItems text files = files.length := by
      unfold totalItems
      rw [if_pos h, Nat.add_zero]
    have h1 : (stage sid text t textOutcome files).events
        = (stageFiles sid (files.length + 0) files 0).2.1 := by
      simp [stage, h]
    have h2 : successCount text textOutcome files
        = files.countP (fun p => isOkOutcome p.2) := by
      unfold successCount
      rw [if_pos h, Nat.zero_add]
    rw [h1, h2, ht]
    have h3 := stageFiles_progress sid (files.length + 0) files 0
    rw [Nat.add_zero] at h3
    exact h3
  · have ht : totalItems text files = files.length + 1 := by
      unfold totalItems
      rw [if_neg h]
    cases textOutcome with
    | ok u =>
      have h1 : (stage sid text t (.ok u) files).events
          = .statusTextEv ("Uploading user-entered text as "
                ++ ("user_input_" ++ toString t ++ ".txt") ++ "...")
            :: .progressEv 1 (files.length + 1)
            :: (stageFiles sid (files.length + 1) files 1).2.1 := by
        simp [stage, h]
      have h2 : successCount text (.ok u) files
          = 1 + files.countP (fun p => isOkOutcome p.2) := by
        unfold successCount
        rw [if_neg h]
        rfl
      rw [h1, h2, ht]
      simp only [progressReports, List.filterMap_cons]
      have h3 := stageFiles_progress sid (files.length + 1) files 1
      simp only [progressReports] at h3
      rw [h3, Nat.add_comm 1 (files.countP (fun p => isOkOutcome p.2))]
      have hr : List.range' 1 (files.countP (fun p => isOkOutcome p.2) + 1)
          = 1 :: List.range' 2 (files.countP (fun p => isOkOutcome p.2)) := rfl
      rw [hr]
      simp
    | error e =>
      have h1 : (stage sid text t (.error e) files).events
          = .statusTextEv ("Uploading user-entered text as "
                ++ ("user_input_" ++ toString t ++ ".txt") ++ "...")
            :: .errorEv ("Error uploading user text: " ++ e)
            :: (stageFiles sid (files.length + 1) files 0).2.1 := by
        simp [stage, h]
      have h2 : successCount text (.error e) files
          = 0 + files.countP (fun p => isOkOutcome p.2) := by
        unfold successCount
        rw [if_neg h]
        rfl
      rw [h1, h2, ht, Nat.zero_add]
      simp only [progressReports, List.filterMap_cons]
      have h3 := stageFiles_progress sid (files.length + 1) files 0
      simp only [progressReports] at h3
      rw [h3]
      try simp

theorem isUserInputKey_textKey (sid : String) (t : Nat) :
    isUserInputKey sid (sid ++ "/" ++ ("user_input_" ++ toString t ++ ".txt")) = true := by
  have hmerge : ∀ X : String, "/" ++ ("user_input_" ++ X) = "/user_input_" ++ X := by
    intro X
    rw [← String.append_assoc]
    have hm : "/" ++ "user_input_" = "/user_input_" := by decide
    rw [hm]
  have hkey : sid ++ "/" ++ ("user_input_" ++ toString t ++ ".txt")
      = (sid ++ "/user_input_") ++ ((toString t ++ ".txt")) := by
    simp only [String.append_assoc]
    rw [hmerge (toString t ++ ".txt")]
  have hkey2 : sid ++ "/" ++ ("user_input_" ++ toString t ++ ".txt")
      = (sid ++ "/" ++ ("user_input_" ++ toString t)) ++ ".txt" := by
    simp only [String.append_assoc]
  unfold isUserInputKey
  rw [Bool.and_eq_true]
  constructor
  · rw [hkey, List.isPrefixOf_iff_prefix, toList_append]
    exact List.prefix_append _ _
  · rw [hkey2, List.isPrefixOf_iff_prefix, toList_append, List.reverse_append]
    exact List.prefix_append _ _

/-- C7 (amended): non-empty trimmed text is wrapped into a synthetic
`user_input_{timestamp}.txt` file and staged first, before any uploaded
file, under the key `"{session_id}/{filename}"`; a mixed submission of N
files plus non-empty text returns N+1 keys when all uploads succeed, and —
provided no uploaded file is itself named `user_input_*.txt` — exactly one
of those keys matches `"{session_id}/user_input_*.txt"`. -/
theorem C7_text_staged_first (sid text : String) (t : Nat)
    (files : List (String × Except String Unit))
    (htext : ¬ pyStrip text = "")
    (hok : ∀ p ∈ files, isOkOutcome p.2 = true)
    (hname : ∀ p ∈ files, isUserInputKey sid (sid ++ "/" ++ p.1) = false) :
    (stage sid text t (.ok ()) files).file_paths
      = (sid ++ "/" ++ ("user_input_" ++ toString t ++ ".txt"))
          :: files.map (fun p => sid ++ "/" ++ p.1)
    ∧ (stage sid text t (.ok ()) files).file_paths.length = files.length + 1
    ∧ isUserInputKey sid (sid ++ "/" ++ ("user_input_" ++ toString t ++ ".txt")) = true
    ∧ (stage sid text t (.ok ()) files).file_paths.countP (isUserInputKey sid) = 1 := by
  have h1 : (stage sid text t (.ok ()) files).file_paths
      = (sid ++ "/" ++ ("user_input_" ++ toString t ++ ".txt"))
          :: (stageFiles sid (files.length + 1) files 1).1 := by
    simp [stage, htext]
  have h2 := (stageFiles_allOk sid (files.length + 1) files 1 hok).1
  have hpaths : (stage sid text t (.ok ()) files).file_paths
      = (sid ++ "/" ++ ("user_input_" ++ toString t ++ ".txt"))
          :: files.map (fun p => sid ++ "/" ++ p.1) := by
    rw [h1, h2]
  refine ⟨hpaths, ?_, isUserInputKey_textKey sid t, ?_⟩
  · rw [hpaths]
    simp
  · rw [hpaths, List.countP_cons]
    have hz : (files.map (fun p => sid ++ "/" ++ p.1)).countP (isUserInputKey sid) = 0 := by
      apply List.countP_eq_zero.mpr
      intro k hk
      obtain ⟨p, hp, hpk⟩ := List.mem_map.mp hk
      rw [← hpk]
      simp [hname p hp]
    rw [hz, isUserInputKey_textKey sid t]
    simp

theorem C7_witness :
    (stage "s" " hi " 5 (.ok ()) [("a.txt", .ok ()), ("b.pdf", .ok ())]).file_paths
      = ["s/user_input_5.txt", "s/a.txt", "s/b.pdf"]
    ∧ (stage "s" " hi " 5 (.ok ()) [("a.txt", .ok ()), ("b.pdf", .ok ())]).file_paths.countP
        (isUserInputKey "s") = 1 := by
  have h := C7_text_staged_first "s" " hi " 5 [("a.txt", .ok ()), ("b.pdf", .ok ())]
    (by decide)
    (by rintro p hp
        simp only [List.mem_cons, List.mem_singleton] at hp
        rcases hp with hp | hp | hp <;> first | (subst hp; rfl) | exact absurd hp (by simp))
    (by rintro p hp
        simp only [List.mem_cons, List.mem_singleton] at hp
        rcases hp with hp | hp | hp <;> first | (subst hp; decide) | exact absurd hp (by simp))
  exact ⟨h.1, h.2.2.2⟩

/-- C7 counterexample: with non-empty text and a single successfully
uploaded file that the user happened to name `user_input_7.txt`, staging
returns two keys matching `"{session_id}/user_input_*.txt"`, not exactly
one, refuting the unconditional uniqueness clause of the claim. -/
theorem C7_cex_two_matching_keys :
    (stage "s" "hi" 5 (.ok ()) [("user_input_7.txt", .ok ())]).file_paths
      = ["s/user_input_5.txt", "s/user_input_7.txt"]
    ∧ (stage "s" "hi" 5 (.ok ()) [("user_input_7.txt", .ok ())]).file_paths.countP
        (isUserInputKey "s") = 2
    ∧ (2 : Nat) ≠ 1 := by
  refine ⟨rfl, ?_, by decide⟩
  decide

/-- C8 counterexample: two files where the first upload fails.  Only one
progress update is emitted (after the second, successful item); the failed
first item is followed by an item-scoped error with no progress report, so
progress is not reported after each processed item as the claim states. -/
theorem C8_cex_no_report_after_failure :
    (stage "s" "" 0 (.ok ()) [("a.txt", .error "x"), ("b.txt", .ok ())]).events
      = [.statusTextEv "Uploading a.txt...", .errorEv "Error uploading a.txt: x",
         .statusTextEv "Uploading b.txt...", .progressEv 1 2]
    ∧ (progressReports (stage "s" "" 0 (.ok ())
        [("a.txt", .error "x"), ("b.txt", .ok ())]).events).length = 1
    ∧ (1 : Nat) ≠ 2 :=
  ⟨rfl, rfl, by decide⟩

/-- C5: when `start_execution` fails, the error is surfaced as an
`st.error` and no partial state change occurs: the stored execution handle,
status and the `auto_check` flag are exactly what they were before the
submission, so no handle is created or stored and automatic checking is not
enabled. -/
theorem C5_launch_failure_no_partial_state (s0 : AppState) (sid text : String) (t : Nat)
    (textOutcome : Except String Unit) (files : List (String × Except String Unit))
    (e : String)
    (h : (stage sid text t textOutcome files).file_paths.isEmpty = false) :
    (processSubmission s0 sid text t textOutcome files (.error e)).1.execution_arn
      = s0.execution_arn
    ∧ (processSubmission s0 sid text t textOutcome files (.error e)).1.execution_status
      = s0.execution_status
    ∧ (processSubmission s0 sid text t textOutcome files (.error e)).1.auto_check
      = s0.auto_check
    ∧ SEvent.errorEv ("Error starting Step Function: " ++ e)
      ∈ (processSubmission s0 sid text t textOutcome files (.error e)).2 := by
  simp [processSubmission, h]

theorem C5_witness :
    (processSubmission ⟨none, [], none, none, false⟩ "s" "" 0 (.ok ())
        [("a.txt", .ok ())] (.error "denied")).1.execution_arn = none
    ∧ (processSubmission ⟨none, [], none, none, false⟩ "s" "" 0 (.ok ())
        [("a.txt", .ok ())] (.error "denied")).1.auto_check = false
    ∧ SEvent.errorEv "Error starting Step Function: denied"
      ∈ (processSubmission ⟨none, [], none, none, false⟩ "s" "" 0 (.ok ())
          [("a.txt", .ok ())] (.error "denied")).2 := by
  have h := C5_launch_failure_no_partial_state ⟨none, [], none, none, false⟩ "s" "" 0 (.ok ())
    [("a.txt", .ok ())] "denied" rfl
  exact ⟨h.1, h.2.2.1, h.2.2.2⟩


theorem autoCheckTick_noPoll_of_off (s : AppState) (h : s.auto_check = false)
    (r : Except String String) : autoCheckTick s r = .noPoll := by
  unfold autoCheckTick
  rw [h]
  simp

theorem autoCheckTick_ne_noPoll (s : AppState) (r : Except String String)
    (h1 : s.auto_check = true) (h2 : arnTruthy s.execution_arn = true) :
    autoCheckTick s r ≠ Tick.noPoll := by
  unfold autoCheckTick
  rw [h1, h2]
  simp only [Bool.and_self, if_true]
  cases hp : (auto_check_status s r).2 with
  | none => simp
  | some st3 =>
    simp only []
    split <;> simp

/-- C3: on an automatic poll tick with polling active, a non-terminal
fetched status leaves `auto_check` enabled and schedules another tick after
the fixed 2-second delay (the next render pass polls again, never skipping
the poll block); a terminal status or a failed poll attempt disables
`auto_check`, after which every subsequent render pass skips the automatic
poll block, so no further automatic poll tick occurs. -/
theorem C3_poll_tick_schedule (s : AppState)
    (hauto : s.auto_check = true) (harn : arnTruthy s.execution_arn = true) :
    (∀ st2, st2 ∉ terminalStatuses →
      autoCheckTick s (.ok st2)
          = .rerunAfterDelay {s with execution_status := some st2} 2
        ∧ ({s with execution_status := some st2} : AppState).auto_check = true
        ∧ ∀ r2, autoCheckTick {s with execution_status := some st2} r2 ≠ .noPoll)
    ∧ (∀ st2, st2 ∈ terminalStatuses →
      autoCheckTick s (.ok st2)
          = .rerunNow {s with execution_status := some st2, auto_check := false}
        ∧ ∀ r2, autoCheckTick {s with execution_status := some st2, auto_check := false} r2
            = .noPoll)
    ∧ (∀ e, autoCheckTick s (.error e) = .rerunAfterDelay {s with auto_check := false} 2
        ∧ ∀ r2, autoCheckTick {s with auto_check := false} r2 = .noPoll) := by
  refine ⟨?_, ?_, ?_⟩
  · intro st2 hst
    refine ⟨?_, hauto, ?_⟩
    · unfold autoCheckTick auto_check_status
      rw [hauto, harn]
      simp [hst]
    · intro r2
      exact autoCheckTick_ne_noPoll _ r2 hauto harn
  · intro st2 hst
    refine ⟨?_, ?_⟩
    · unfold autoCheckTick auto_check_status
      rw [hauto, harn]
      simp [hst]
    · intro r2
      exact autoCheckTick_noPoll_of_off _ rfl r2
  · intro e
    refine ⟨?_, ?_⟩
    · unfold autoCheckTick auto_check_status
      rw [hauto, harn]
      simp
    · intro r2
      exact autoCheckTick_noPoll_of_off _ rfl r2

theorem C3_witness :
    (autoCheckTick ⟨none, [], some "a", some "RUNNING", true⟩ (.ok "RUNNING")
        = .rerunAfterDelay ⟨none, [], some "a", some "RUNNING", true⟩ 2)
    ∧ (autoCheckTick ⟨none, [], some "a", some "RUNNING", true⟩ (.ok "SUCCEEDED")
        = .rerunNow ⟨none, [], some "a", some "SUCCEEDED", false⟩)
    ∧ (∀ r2, autoCheckTick ⟨none, [], some "a", some "SUCCEEDED", false⟩ r2 = .noPoll)
    ∧ (autoCheckTick ⟨none, [], some "a", some "RUNNING", true⟩ (.error "boom")
        = .rerunAfterDelay ⟨none, [], some "a", some "RUNNING", false⟩ 2)
    ∧ (∀ r2, autoCheckTick ⟨none, [], some "a", some "RUNNING", false⟩ r2 = .noPoll) := by
  have h := C3_poll_tick_schedule ⟨none, [], some "a", some "RUNNING", true⟩ rfl rfl
  exact ⟨(h.1 "RUNNING" (by simp [terminalStatuses])).1,
         (h.2.1 "SUCCEEDED" (by simp [terminalStatuses])).1,
         (h.2.1 "SUCCEEDED" (by simp [terminalStatuses])).2,
         (h.2.2 "boom").1,
         (h.2.2 "boom").2⟩

/-- C9 (amended): the manual "Check Status Manually" action is provided
exactly when an execution handle is stored, automatic checking is off, and
the current status is RUNNING.  In particular it is not offered while the
stored status is PENDING (or any other non-terminal value besides RUNNING),
contrary to the claim. -/
theorem C9_manual_button_iff (s : AppState) (desc : Except String JVal) :
    PEvent.buttonEv "Check Status Manually" ∈ statusPanel s desc
      ↔ (arnTruthy s.execution_arn = true
          ∧ s.execution_status = some "RUNNING"
          ∧ s.auto_check = false) := by
  unfold statusPanel
  cases harn : arnTruthy s.execution_arn with
  | false => simp
  | true =>
    cases hst : s.execution_status with
    | none => simp
    | some stx =>
      simp only [if_true]
      by_cases h0 : stx = ""
      · subst h0
        simp
      · rw [if_pos (by simp [h0])]
        by_cases h1 : stx = "SUCCEEDED"
        · subst h1
          simp [List.mem_map]
        · by_cases h2 : stx = "FAILED"
          · subst h2
            simp [List.mem_map]
          · by_cases h3 : stx = "RUNNING"
            · subst h3
              cases hauto : s.auto_check with
              | false => simp
              | true => simp
            · simp [h1, h2, h3]

/-- C9 counterexample: with a stored handle, automatic checking off and a
PENDING (non-terminal) status, the status panel renders only the status
line and offers no manual check action, refuting the claim for PENDING. -/
theorem C9_cex_pending_no_button :
    statusPanel ⟨none, [], some "a", some "PENDING", false⟩ (.ok (JVal.obj []))
      = [PEvent.statusLineEv "PENDING"]
    ∧ PEvent.buttonEv "Check Status Manually"
      ∉ statusPanel ⟨none, [], some "a", some "PENDING", false⟩ (.ok (JVal.obj [])) := by
  constructor
  · rfl
  · intro hmem
    rw [show statusPanel ⟨none, [], some "a", some "PENDING", false⟩ (.ok (JVal.obj []))
        = [PEvent.statusLineEv "PENDING"] from rfl] at hmem
    simp at hmem

/-- C4 (amended): on a FAILED status, a *missing* `error` or `cause` field
of the describe-execution response defaults to the string `"{}"`, parses to
an empty object, and both parsed values are rendered; when a present field
fails to parse as JSON, the whole block degrades to a single warning — with
neither `Error:` nor `Cause:` line rendered — rather than an unhandled
fault. -/
theorem C4_failed_error_handling :
    (∀ fs : PyDict, lookupField fs "error" = none → lookupField fs "cause" = none →
      renderFailedSection (.ok (.obj fs))
        = [.errorEv "Processing failed.", .errorEv "Error: \x7b\x7d",
           .errorEv "Cause: \x7b\x7d"])
    ∧ (∀ (fs : PyDict) (sv m : String), lookupField fs "error" = some (.str sv) →
        jsonParse sv = .error m →
        renderFailedSection (.ok (.obj fs))
          = [.errorEv "Processing failed.",
             .warningEv ("Could not parse error details: " ++ m)]) := by
  constructor
  · intro fs h1 h2
    have hget1 : pyGetD (.obj fs) "error" (.str "\x7b\x7d") = .ok (.str "\x7b\x7d") := by
      simp [pyGetD, getD, h1]
    have hget2 : pyGetD (.obj fs) "cause" (.str "\x7b\x7d") = .ok (.str "\x7b\x7d") := by
      simp [pyGetD, getD, h2]
    have hb : failedBody (.ok (.obj fs))
        = ⟨[.errorEv ("Error: " ++ pyStr (.obj [])),
            .errorEv ("Cause: " ++ pyStr (.obj []))], none⟩ := by
      unfold failedBody
      simp only [withVal, hget1, hget2, jsonLoadsVal,
        show jsonParse "\x7b\x7d" = .ok (.obj []) from rfl]
      rfl
    unfold renderFailedSection runCatch
    rw [hb]
    rfl
  · intro fs sv m h1 hp
    have hget1 : pyGetD (.obj fs) "error" (.str "\x7b\x7d") = .ok (.str sv) := by
      simp [pyGetD, getD, h1]
    have hb : failedBody (.ok (.obj fs)) = ⟨[], some m⟩ := by
      unfold failedBody
      simp only [withVal, hget1, jsonLoadsVal, hp]
    unfold renderFailedSection runCatch
    rw [hb]
    rfl

theorem C4_witness :
    renderFailedSection (.ok (.obj [("other", .num 1)]))
      = [.errorEv "Processing failed.", .errorEv "Error: \x7b\x7d",
         .errorEv "Cause: \x7b\x7d"]
    ∧ renderFailedSection (.ok (.obj [("error", .str "not json"), ("cause", .str "\x7b\x7d")]))
      = [.errorEv "Processing failed.",
         .warningEv ("Could not parse error details: " ++ "Expecting value")] :=
  ⟨C4_failed_error_handling.1 [("other", .num 1)] rfl rfl,
   C4_failed_error_handling.2 [("error", .str "not json"), ("cause", .str "\x7b\x7d")]
     "not json" "Expecting value" rfl rfl⟩

/-- C4 counterexample: the `error` field is present but is not valid JSON.
The claim predicts it defaults to an empty object and that both `Error:`
and `Cause:` lines are still rendered; the code instead renders neither —
the whole block degrades to one warning — so the rendered output contains
zero `Error:`/`Cause:` error lines. -/
theorem C4_cex_parse_failure_renders_neither :
    renderFailedSection (.ok (.obj [("error", .str "not json"), ("cause", .str "\x7b\x7d")]))
      = [.errorEv "Processing failed.",
         .warningEv "Could not parse error details: Expecting value"]
    ∧ countErrorsWithPre "Error: "
        (renderFailedSection (.ok (.obj [("error", .str "not json"),
          ("cause", .str "\x7b\x7d")]))) = 0
    ∧ countErrorsWithPre "Cause: "
        (renderFailedSection (.ok (.obj [("error", .str "not json"),
          ("cause", .str "\x7b\x7d")]))) = 0 :=
  ⟨rfl, rfl, rfl⟩

theorem pyIn_obj_none {fs : PyDict} (h : lookupField fs "body" = none) :
    pyIn "body" (.obj fs) = .ok false := by
  show Except.ok (fs.any fun p => p.1 == "body") = Except.ok false
  congr 1
  have hf : fs.find? (fun q => q.1 == "body") = none := Option.map_eq_none.mp h
  rw [List.any_eq_false]
  intro x hx
  exact List.find?_eq_none.mp hf x hx

theorem pyIn_obj_some {fs : PyDict} {v : JVal} (h : lookupField fs "body" = some v) :
    pyIn "body" (.obj fs) = .ok true := by
  show Except.ok (fs.any fun p => p.1 == "body") = Except.ok true
  congr 1
  obtain ⟨p, hfind, hpv⟩ := Option.map_eq_some.mp h
  rw [List.any_eq_true]
  have hmem := List.mem_of_find?_eq_some hfind
  have hsat := List.find?_some hfind
  exact ⟨p, hmem, hsat⟩

theorem collectBodies_skip {fs : PyDict}
    (hbody : lookupField fs "body" = none
      ∨ ∃ v, lookupField fs "body" = some v ∧ isDictVal v = false) :
    ∀ pre post : List JVal,
      collectBodies (pre ++ JVal.obj fs :: post) = collectBodies (pre ++ post) := by
  intro pre post
  induction pre with
  | nil =>
    simp only [List.nil_append]
    rcases hbody with h | ⟨v, hv, hnd⟩
    · rw [collectBodies, pyIn_obj_none h]
    · rw [collectBodies, pyIn_obj_some hv]
      have hidx : pyIndex (.obj fs) "body" = .ok v := by
        show (match lookupField fs "body" with
          | some x => Except.ok x
          | none => Except.error "KeyError") = Except.ok v
        rw [hv]
      rw [hidx]
      cases v <;> simp_all [isDictVal]
  | cons p pre ih =>
    simp only [List.cons_append]
    rw [collectBodies, collectBodies, ih]

theorem emitsItemsFallback_skip {fs : PyDict}
    (hbody : lookupField fs "body" = none
      ∨ ∃ v, lookupField fs "body" = some v ∧ isDictVal v = false) :
    ∀ pre post : List JVal,
      emitsItemsFallback (pre ++ JVal.obj fs :: post) = emitsItemsFallback (pre ++ post) := by
  have hskip : renderItemFallback (JVal.obj fs) = Emits.done := by
    rcases hbody with h | ⟨v, hv, hnd⟩
    · unfold renderItemFallback
      rw [pyIn_obj_none h]
      simp [withVal]
    · unfold renderItemFallback
      rw [pyIn_obj_some hv]
      have hidx : pyIndex (.obj fs) "body" = .ok v := by
        show (match lookupField fs "body" with
          | some x => Except.ok x
          | none => Except.error "KeyError") = Except.ok v
        rw [hv]
      simp only [withVal, hidx, if_true]
      cases v <;> simp_all [isDictVal]
  intro pre post
  induction pre with
  | nil =>
    simp only [List.nil_append]
    rw [emitsItemsFallback, hskip, Emits.done_andThen]
  | cons p pre ih =>
    simp only [List.cons_append]
    rw [emitsItemsFallback, emitsItemsFallback, ih]

/-- C10: in every rendering path of a SUCCEEDED payload — the equal-length
pairing branch, the mismatched-length fallback, and the topics-absent
fallback (the latter two share the per-topic loop, duplicated verbatim in
the source) — a dict entry of a topic's result list that lacks a `body`
key, or whose `body` value is not a dict, is silently skipped: removing it
leaves the rendered output unchanged (so it contributes no question and no
warning), and the remaining entries are still rendered. -/
theorem C10_bodyless_entry_skipped (fs : PyDict)
    (hbody : lookupField fs "body" = none
      ∨ ∃ v, lookupField fs "body" = some v ∧ isDictVal v = false) :
    ∀ (name : JVal) (idx : Nat) (pre post : List JVal),
      renderTopicEq name (.arr (pre ++ JVal.obj fs :: post))
        = renderTopicEq name (.arr (pre ++ post))
      ∧ renderTopicFallback idx (.arr (pre ++ JVal.obj fs :: post))
        = renderTopicFallback idx (.arr (pre ++ post)) := by
  intro name idx pre post
  constructor
  · unfold renderTopicEq
    have h1 : pyIter (JVal.arr (pre ++ JVal.obj fs :: post)) = .ok (pre ++ JVal.obj fs :: post) := rfl
    have h2 : pyIter (JVal.arr (pre ++ post)) = .ok (pre ++ post) := rfl
    rw [h1, h2]
    simp only [withVal]
    rw [collectBodies_skip hbody pre post]
  · unfold renderTopicFallback
    have h1 : pyIter (JVal.arr (pre ++ JVal.obj fs :: post)) = .ok (pre ++ JVal.obj fs :: post) := rfl
    have h2 : pyIter (JVal.arr (pre ++ post)) = .ok (pre ++ post) := rfl
    rw [h1, h2]
    simp only [withVal]
    rw [emitsItemsFallback_skip hbody pre post]

/-- Example question item `{"body": {"question_id": n, "question": "q",
"answer": "a"}}` used by concrete instantiations. -/
def exQItem (n : Int) : JVal :=
  .obj [("body", .obj [("question_id", .num n), ("question", .str "q"), ("answer", .str "a")])]

theorem C10_witness :
    renderTopicEq (.str "T")
        (.arr ([exQItem 1] ++ JVal.obj [("body", .str "oops")] :: [exQItem 2]))
      = renderTopicEq (.str "T") (.arr ([exQItem 1] ++ [exQItem 2]))
    ∧ renderTopicFallback 0
        (.arr ([exQItem 1] ++ JVal.obj [("body", .str "oops")] :: [exQItem 2]))
      = renderTopicFallback 0 (.arr ([exQItem 1] ++ [exQItem 2])) := by
  have h := C10_bodyless_entry_skipped [("body", .str "oops")]
    (Or.inr ⟨.str "oops", rfl, rfl⟩) (.str "T") 0 [exQItem 1] [exQItem 2]
  exact ⟨h.1, h.2⟩

/-- C2 (amended): when the payload has `topics` and `topic_results` lists
of equal length, each topic name is paired positionally with its result
list; within each topic the collected question bodies are rendered sorted
ascending by `question_id` parsed as an integer — the string `'0'` being
the default when `question_id` is missing — stably and regardless of input
order (the rendered bodies are a permutation of the collected ones).  A
present-but-unparseable `question_id` instead raises, degrading the whole
render to a warning (see the counterexample), so the hypothesis requires
every key to parse. -/
theorem C2_equal_length_sorted (ts tds : List JVal) (h : ts.length = tds.length) :
    renderOutputBody (.obj [("topics", .arr ts), ("topic_results", .arr tds)])
      = (emit1 (.headerEv "Processing Results")).andThen (renderPairs (ts.zip tds))
    ∧ ∀ (name td : JVal) (items : List JVal) (bodies : List PyDict)
        (kbs : List (Int × PyDict)),
        pyIter td = .ok items → collectBodies items = .ok bodies →
        keyedBodies bodies = .ok kbs →
        renderTopicEq name td
          = (emit1 (.subheaderEv (pyStr name))).andThen
              (emitsBodies ((List.insertionSort keyLE kbs).map Prod.snd))
        ∧ List.Sorted (· ≤ ·) ((List.insertionSort keyLE kbs).map Prod.fst)
        ∧ ((List.insertionSort keyLE kbs).map Prod.snd).Perm bodies := by
  constructor
  · have h1 : pyIn "topic_results"
        (JVal.obj [("topics", .arr ts), ("topic_results", .arr tds)]) = .ok true := rfl
    have h2 : pyIn "topics"
        (JVal.obj [("topics", .arr ts), ("topic_results", .arr tds)]) = .ok true := rfl
    unfold renderOutputBody
    rw [h1]
    simp only [withVal, if_true]
    rw [h2]
    simp only [withVal, if_true]
    have h3 : pyIndex (JVal.obj [("topics", .arr ts), ("topic_results", .arr tds)]) "topics"
        = .ok (.arr ts) := rfl
    have h4 : pyIndex (JVal.obj [("topics", .arr ts), ("topic_results", .arr tds)])
        "topic_results" = .ok (.arr tds) := rfl
    rw [h3, h4]
    simp only [withVal, pyLen, pyIter, if_pos h]
  · intro name td items bodies kbs hit hcb hkb
    refine ⟨?_, ?_, ?_⟩
    · unfold renderTopicEq sortBodies
      rw [hit]
      simp only [withVal, hcb, hkb, Except.map]
    · rw [List.Sorted, List.pairwise_map]
      exact List.sorted_insertionSort keyLE kbs
    · have hp := (List.perm_insertionSort keyLE kbs).map Prod.snd
      rw [keyedBodies_map_snd bodies kbs hkb] at hp
      exact hp

/-- The three question bodies of the spec example with ids `[3, "1", 2]`. -/
def exC2B3 : PyDict := [("question_id", .num 3), ("question", .str "q"), ("answer", .str "a")]

/-- Body with the string id `"1"`. -/
def exC2B1 : PyDict := [("question_id", .str "1"), ("question", .str "q"), ("answer", .str "a")]

/-- Body with id `2`. -/
def exC2B2 : PyDict := [("question_id", .num 2), ("question", .str "q"), ("answer", .str "a")]

/-- Topic data with input order of ids `[3, "1", 2]`. -/
def exC2Td0 : JVal :=
  .arr [.obj [("body", .obj exC2B3)], .obj [("body", .obj exC2B1)], .obj [("body", .obj exC2B2)]]

/-- The collected bodies of `exC2Td0`, in input order. -/
def exC2Bodies : List PyDict := [exC2B3, exC2B1, exC2B2]

/-- The bodies of `exC2Td0` paired with their parsed integer keys. -/
def exC2Kbs : List (Int × PyDict) := [(3, exC2B3), (1, exC2B1), (2, exC2B2)]

theorem C2_witness :
    (renderOutputBody (.obj [("topics", .arr [.str "A", .str "B"]),
        ("topic_results", .arr [exC2Td0, .arr [exQItem 7]])])
      = (emit1 (.headerEv "Processing Results")).andThen
          (renderPairs ([JVal.str "A", JVal.str "B"].zip [exC2Td0, .arr [exQItem 7]])))
    ∧ (renderTopicEq (.str "A") exC2Td0
        = (emit1 (.subheaderEv (pyStr (.str "A")))).andThen
            (emitsBodies ((List.insertionSort keyLE exC2Kbs).map Prod.snd))
      ∧ List.Sorted (· ≤ ·) ((List.insertionSort keyLE exC2Kbs).map Prod.fst)
      ∧ ((List.insertionSort keyLE exC2Kbs).map Prod.snd).Perm exC2Bodies) := by
  have h := C2_equal_length_sorted [.str "A", .str "B"] [exC2Td0, .arr [exQItem 7]] rfl
  exact ⟨h.1, h.2 (.str "A") exC2Td0
    [.obj [("body", .obj exC2B3)], .obj [("body", .obj exC2B1)], .obj [("body", .obj exC2B2)]]
    exC2Bodies exC2Kbs rfl rfl rfl⟩

/-- A SUCCEEDED describe-execution response whose output carries one topic
whose single question has the unparseable question id `"abc"`. -/
def exC2BadResp : JVal :=
  .obj [("output", .str "\x7b\"topics\": [\"A\"], \"topic_results\": [[\x7b\"body\": \x7b\"question_id\": \"abc\"\x7d\x7d]]\x7d")]

/-- C2 counterexample: a present but unparseable `question_id` (`"abc"`).
The claim predicts it defaults to 0 and the question is rendered; the code
instead raises in the sort key (a `ValueError` from `int('abc')`), which
the surrounding handler turns into a warning: no question is rendered at
all. -/
theorem C2_cex_unparseable_qid_warns :
    renderSucceededSection (.ok exC2BadResp)
      = [.headerEv "Processing Results", .subheaderEv "A",
         .warningEv "Could not parse execution output: ValueError"]
    ∧ questionIdsOf (renderSucceededSection (.ok exC2BadResp)) = [] :=
  ⟨rfl, rfl⟩

theorem questionIdsOf_flatMap (bs : List PyDict) :
    questionIdsOf (bs.flatMap (fun b => (renderQuestionBody b).evs))
      = bs.map (fun b => getD b "question_id" (.str "N/A")) := by
  induction bs with
  | nil => rfl
  | cons b rest ih =>
    rw [List.flatMap_cons, questionIdsOf_append, questionIdsOf_renderQuestionBody, ih]
    rfl

/-- C1 (amended): when `topics` and `topic_results` have different lengths,
the renderer emits the mismatch warning and falls back to positional
labels "Topic 1", "Topic 2", …; within each fallback topic the questions
are rendered in their input order — no sorting by `question_id` is applied
(see the counterexample) — and no exception escapes (an error inside the
block is converted to a warning by the surrounding handler, which the
hypothesis here excludes). -/
theorem C1_mismatch_fallback_input_order (ts tds : List JVal)
    (h : ts.length ≠ tds.length) :
    renderOutputBody (.obj [("topics", .arr ts), ("topic_results", .arr tds)])
      = (emit1 (.headerEv "Processing Results")).andThen
          ((emit1 (.warningEv
              "Topic names and data lengths don\x27t match. Displaying data without topic names.")).andThen
            (renderTopicsFallback 0 tds))
    ∧ ∀ (idx : Nat) (td : JVal) (items : List JVal) (bodies : List PyDict),
        pyIter td = .ok items → collectBodies items = .ok bodies →
        (emitsItemsFallback items).err = none →
        (renderTopicFallback idx td).evs
          = .subheaderEv ("Topic " ++ toString (idx + 1))
              :: bodies.flatMap (fun b => (renderQuestionBody b).evs)
        ∧ questionIdsOf (renderTopicFallback idx td).evs
            = bodies.map (fun b => getD b "question_id" (.str "N/A")) := by
  constructor
  · have h1 : pyIn "topic_results"
        (JVal.obj [("topics", .arr ts), ("topic_results", .arr tds)]) = .ok true := rfl
    have h2 : pyIn "topics"
        (JVal.obj [("topics", .arr ts), ("topic_results", .arr tds)]) = .ok true := rfl
    unfold renderOutputBody
    rw [h1]
    simp only [withVal, if_true]
    rw [h2]
    simp only [withVal, if_true]
    have h3 : pyIndex (JVal.obj [("topics", .arr ts), ("topic_results", .arr tds)]) "topics"
        = .ok (.arr ts) := rfl
    have h4 : pyIndex (JVal.obj [("topics", .arr ts), ("topic_results", .arr tds)])
        "topic_results" = .ok (.arr tds) := rfl
    rw [h3, h4]
    simp only [withVal, pyLen, pyIter, if_neg h]
  · intro idx td items bodies hit hcb herr
    have hevs : (renderTopicFallback idx td).evs
        = .subheaderEv ("Topic " ++ toString (idx + 1))
            :: bodies.flatMap (fun b => (renderQuestionBody b).evs) := by
      unfold renderTopicFallback
      rw [hit]
      simp only [withVal]
      rw [emit1_andThen_evs, emitsItemsFallback_evs items bodies hcb herr]
    refine ⟨hevs, ?_⟩
    rw [hevs]
    show questionIdsOf (.subheaderEv ("Topic " ++ toString (idx + 1))
        :: bodies.flatMap (fun b => (renderQuestionBody b).evs)) = _
    rw [show questionIdsOf (.subheaderEv ("Topic " ++ toString (idx + 1))
        :: bodies.flatMap (fun b => (renderQuestionBody b).evs))
      = questionIdsOf (bodies.flatMap (fun b => (renderQuestionBody b).evs)) from rfl]
    exact questionIdsOf_flatMap bodies

theorem C1_witness :
    (renderOutputBody (.obj [("topics", .arr [.str "A"]),
        ("topic_results", .arr [.arr [exQItem 2, exQItem 1], .arr [exQItem 3]])])
      = (emit1 (.headerEv "Processing Results")).andThen
          ((emit1 (.warningEv
              "Topic names and data lengths don\x27t match. Displaying data without topic names.")).andThen
            (renderTopicsFallback 0 [.arr [exQItem 2, exQItem 1], .arr [exQItem 3]])))
    ∧ questionIdsOf (renderTopicFallback 0 (.arr [exQItem 2, exQItem 1])).evs
        = [JVal.num 2, JVal.num 1] := by
  have h := C1_mismatch_fallback_input_order [.str "A"]
    [.arr [exQItem 2, exQItem 1], .arr [exQItem 3]] (by decide)
  refine ⟨h.1, ?_⟩
  have h2 := (h.2 0 (.arr [exQItem 2, exQItem 1]) [exQItem 2, exQItem 1]
    [[("question_id", .num 2), ("question", .str "q"), ("answer", .str "a")],
     [("question_id", .num 1), ("question", .str "q"), ("answer", .str "a")]]
    rfl rfl rfl).2
  rw [h2]
  rfl

/-- A SUCCEEDED describe-execution response with one topic name but two
topic result lists, the first of which carries question ids `2` then `1`. -/
def exC1Resp : JVal :=
  .obj [("output", .str "\x7b\"topics\": [\"A\"], \"topic_results\": [[\x7b\"body\": \x7b\"question_id\": 2, \"question\": \"q\", \"answer\": \"a\"\x7d\x7d, \x7b\"body\": \x7b\"question_id\": 1, \"question\": \"q\", \"answer\": \"a\"\x7d\x7d], [\x7b\"body\": \x7b\"question_id\": 3, \"question\": \"q\", \"answer\": \"a\"\x7d\x7d]]\x7d")]

set_option maxRecDepth 100000 in
/-- C1 counterexample: with mismatched lengths the fallback renders the
warning and positional labels, but the questions of fallback Topic 1 appear
as `2` then `1` — their input order — whereas the claim asserts they are
rendered sorted ascending by `question_id`; `[2, 1]` is not sorted. -/
theorem C1_cex_fallback_not_sorted :
    (topicSegments (renderSucceededSection (.ok exC1Resp))).map questionIdsOf
      = [[], [.num 2, .num 1], [.num 3]]
    ∧ ¬ List.Sorted (· ≤ ·) [(2 : Int), 1] :=
  ⟨rfl, by decide⟩
